import Mathlib

/-!
Verification of the job-manager core of `src/downloader.py` (class `DownloadManager`,
dataclasses `DownloadOptions` / `DownloadJob`).

Modelling conventions:
* Python floats that hold progress percentages and backoff delays are modelled as
  exact rationals (`ℚ`); every value the claims mention (37.5, 100.0, 60.0, 0.5)
  is exact in both representations.
* `job.cancel_event` (a `threading.Event` set asynchronously by `cancel_job`) is
  modelled by a monotone oracle `cancelAt cancelTime clock`: the event is set from
  logical instant `cancelTime` on.  Every read of the event in the source consumes
  one tick of the `clock` counter, so "the signal becomes set between two reads"
  is expressible.
* The extraction collaborator (`YoutubeDL.extract_info(url, download=True)`) is
  opaque: an invocation is described by an `ExtrSpec` — the progress-hook payloads
  it delivers in order, followed by either a normal return or a raised message.
  The `skip_download` metadata probe of lines 864-878 delivers no progress and
  downloads nothing; only its boolean outcome (`is_image_mode`) is kept.
* `_validate_cookiefile` touches the filesystem; only the boolean that matters to
  control flow (whether a non-empty `cookies_file` validated) is kept in the
  environment.
* Post-success steps (AI title cleanup, summary file, image cleanup, organizing)
  only touch `title` / `filename` / `thumbnail` and are wrapped in try/except in
  the source (the AI collaborators are pure string functions); they are not
  modelled because no claim mentions those fields.
-/

namespace Snakee

/-- Character-list prefix test (structural recursion so the kernel can
evaluate it). -/
def charsStartWith : List Char → List Char → Bool
  | [], _ => true
  | _ :: _, [] => false
  | p :: ps, c :: cs => p == c && charsStartWith ps cs

/-- Character-list substring test. -/
def charsContain (pat : List Char) : List Char → Bool
  | [] => pat.isEmpty
  | c :: cs => charsStartWith pat (c :: cs) || charsContain pat cs

/-- Substring test: Python `pat in s`. -/
def containsSubstr (s pat : String) : Bool :=
  charsContain pat.data s.data

/-- Python `str.lower()` (character-wise, as a kernel-evaluable function). -/
def lowerStr (s : String) : String :=
  String.mk (s.data.map Char.toLower)

/-- Python `str.strip()`: drop leading and trailing whitespace. -/
def pyStrip (s : String) : String :=
  String.mk (((s.data.dropWhile Char.isWhitespace).reverse.dropWhile
    Char.isWhitespace).reverse)

/-- `DownloadOptions` (src/downloader.py lines 586-610); presentation-only fields
(subtitles, thumbnails, AI toggles, trim range) are omitted — no modelled code
path reads them. -/
structure DownloadOptions where
  quality : String
  fps : Int
  container : String
  audio_only : Bool
  cookies_file : String
  concurrent_downloads : Int
  retries : Int
deriving Repr, DecidableEq, Inhabited

/-- `DownloadJob` (src/downloader.py lines 613-627).  `cancel_event` is modelled
by the run environment's cancel oracle, not stored on the record. -/
structure DownloadJob where
  job_id : Nat
  url : String
  options : DownloadOptions
  status : String := "queued"
  progress : ℚ := 0
  speed : String := ""
  eta : String := ""
  filename : String := ""
  error : String := ""
  title : String := ""
  thumbnail : String := ""
deriving Repr, DecidableEq, Inhabited

/-- `_is_block_error` (lines 726-738): case-insensitive substring classification
of transient-block failures. -/
def is_block_error (message : String) : Bool :=
  let msg_l := lowerStr message
  containsSubstr msg_l "sign in"
  || containsSubstr msg_l "cookies"
  || containsSubstr msg_l "confirm you’re not a bot"
  || containsSubstr msg_l "confirm you\x27re not a bot"
  || containsSubstr msg_l "captcha"
  || containsSubstr msg_l "429"
  || containsSubstr msg_l "too many requests"
  || containsSubstr msg_l "http error 403"
  || containsSubstr msg_l "forbidden"

/-- The format-unavailable classification of lines 924-928. -/
def is_format_error (message : String) : Bool :=
  let msg_l := lowerStr message
  containsSubstr msg_l "requested format is not available"
  || containsSubstr msg_l "requested format not available"
  || containsSubstr msg_l "requested format"

/-- `_format_string` (lines 1061-1100). -/
def format_string (quality : String) (fps : Int) (container : String)
    (audio_only : Bool) : String :=
  let q := lowerStr (pyStrip quality)
  let _ := container
  if audio_only then "bestaudio/best"
  else
    let h : Option Int :=
      if q = "144p" then some 144 else if q = "240p" then some 240
      else if q = "360p" then some 360 else if q = "480p" then some 480
      else if q = "720p" then some 720 else if q = "1080p" then some 1080
      else if q = "2k" then some 1440 else if q = "4k" then some 2160
      else if q = "8k" then some 4320 else none
    match h with
    | none =>
      if fps ≤ 0 then "bestvideo+bestaudio/best"
      else if fps ≥ 60 then "bestvideo[fps>=60]+bestaudio/best/bestvideo+bestaudio/best"
      else "bestvideo[fps<=30]+bestaudio/best/bestvideo+bestaudio/best"
    | some hv =>
      if fps ≤ 0 then
        "bestvideo[height<=" ++ toString hv ++ "]+bestaudio/best[height<=" ++ toString hv ++ "]"
      else if fps ≥ 60 then
        "bestvideo[height<=" ++ toString hv ++ "][fps>=60]+bestaudio/best/" ++
          "bestvideo[height<=" ++ toString hv ++ "]+bestaudio/best"
      else
        "bestvideo[height<=" ++ toString hv ++ "][fps<=30]+bestaudio/best/" ++
          "bestvideo[height<=" ++ toString hv ++ "]+bestaudio/best"

/-- The two `ydl_opts` keys the format fallback (lines 929-931) pops; the other
keys never influence the modelled control flow. -/
structure YdlOptsCore where
  format : Option String
  merge_output_format : Option String
deriving Repr, DecidableEq

/-- `ydl_opts` construction, restricted to `format` (lines 813-815) and
`merge_output_format` (lines 829-830), with the image-mode pops of lines 880-884. -/
def mainYdlOpts (opts : DownloadOptions) (is_image_mode : Bool) : YdlOptsCore :=
  let fmt := format_string opts.quality opts.fps opts.container opts.audio_only
  let base : YdlOptsCore :=
    { format := if fmt ≠ "" then some fmt else none
      merge_output_format :=
        if (lowerStr opts.container = "mp4" ∨ lowerStr opts.container = "mkv"
              ∨ lowerStr opts.container = "webm") ∧ ¬ opts.audio_only
        then some (lowerStr opts.container) else none }
  if is_image_mode then { format := none, merge_output_format := none } else base

/-- `ydl_opts_fallback` (lines 929-931): copy with `format` and
`merge_output_format` popped. -/
def fallbackYdlOpts (o : YdlOptsCore) : YdlOptsCore :=
  { o with format := none, merge_output_format := none }

/-- One payload delivered to `_progress_hook` (lines 1102-1169).  `pct` is the
item percentage after the `_percent_str` / byte-count derivation of lines
1108-1119; `pi`/`pc` are `playlist_index` / `playlist_count` after the
`int(...) if ... else 0` conversions of lines 1129-1136 (0 encodes absent). -/
structure HookData where
  status : String
  pct : ℚ
  pi : Int
  pc : Int
  speed : String
  eta : String
  filename : Option String
deriving Repr, DecidableEq

/-- Python `min` on two rationals; kernel-evaluable `if` form. -/
def pyMin (a b : ℚ) : ℚ := if a ≤ b then a else b

/-- Python `max` on two rationals; kernel-evaluable `if` form. -/
def pyMax (a b : ℚ) : ℚ := if a ≤ b then b else a

/-- `max(0.0, min(100.0, x))`. -/
def clamp01_100 (x : ℚ) : ℚ := pyMax 0 (pyMin 100 x)

/-- The job mutation performed by `_progress_hook` once past the cancel check
(lines 1106-1169). -/
def hook_update (job : DownloadJob) (d : HookData) : DownloadJob :=
  if d.status = "downloading" then
    { job with
      progress :=
        if 0 < d.pc ∧ 0 < d.pi then
          clamp01_100 ((((d.pi : ℚ) - 1) + d.pct / 100) / (d.pc : ℚ) * 100)
        else clamp01_100 d.pct
      speed := d.speed
      eta := d.eta
      filename := match d.filename with | some f => f | none => job.filename }
  else if d.status = "finished" then
    { job with
      progress :=
        if 0 < d.pc ∧ 0 < d.pi then
          clamp01_100 ((d.pi : ℚ) / (d.pc : ℚ) * 100)
        else 100 }
  else job

/-- `_progress_hook` (lines 1102-1169): raises `Exception("Cancelled")` when the
job's cancel event is set, otherwise updates the job. -/
def progress_hook (cancel_set : Bool) (job : DownloadJob) (d : HookData) :
    Except String DownloadJob :=
  if cancel_set then Except.error "Cancelled"
  else Except.ok (hook_update job d)

/-- The cancel-event oracle: the event is set from instant `t` on. -/
def cancelAt (cancelTime : Option Nat) (clock : Nat) : Bool :=
  match cancelTime with
  | none => false
  | some t => decide (t ≤ clock)

/-- Behaviour of one `extract_info(url, download=True)` invocation: progress-hook
payloads delivered in order, then normal return (`ok`) or a raised message. -/
structure ExtrSpec where
  hooks : List HookData
  result : Except String Unit

/-- Environment of one per-job execution: when the cancel event gets set, what
each collaborator invocation does, the jitter drawn per attempt, the image-probe
outcome, and whether a non-empty cookies path validates. -/
structure RunEnv where
  cancelTime : Option Nat
  attempts : Nat → ExtrSpec
  fallback : Nat → ExtrSpec
  jitter : Nat → ℚ
  is_image_mode : Bool
  cookiefile_valid : Bool

/-- Deliver the hook payloads of one invocation; each hook entry reads the cancel
event (one clock tick) and raises `Cancelled` when it is set. -/
def runHooks (ct : Option Nat) : List HookData → DownloadJob → Nat →
    DownloadJob × Nat × Option String
  | [], job, clock => (job, clock, none)
  | d :: rest, job, clock =>
    match progress_hook (cancelAt ct clock) job d with
    | Except.error m => (job, clock + 1, some m)
    | Except.ok j => runHooks ct rest j (clock + 1)

/-- One collaborator invocation: hooks, then the configured return/raise. -/
def runExtr (ct : Option Nat) (spec : ExtrSpec) (job : DownloadJob) (clock : Nat) :
    DownloadJob × Nat × Except String Unit :=
  match runHooks ct spec.hooks job clock with
  | (j, c, some m) => (j, c, Except.error m)
  | (j, c, none) => (j, c, spec.result)

/-- Record of one collaborator invocation: was it the format fallback, and the
option set it received. -/
structure InvRecord where
  is_fallback : Bool
  opts : YdlOptsCore
deriving Repr, DecidableEq

/-- Mutable state threaded through the retry loop of lines 906-948. -/
structure LoopState where
  job : DownloadJob
  clock : Nat
  calls : Nat
  fbcalls : Nat
  delays : List ℚ
  trace : List InvRecord
  lastExc : Option String
deriving Inhabited

inductive RunExit where
  | success
  | raised (msg : String)

/-- The backoff delay of line 940:
`min(60.0, (2.0 ** (attempt - 1)) + random.uniform(0.0, 1.0))`. -/
def backoffDelay (attempt : Nat) (jitter : ℚ) : ℚ :=
  pyMin 60 ((2 : ℚ) ^ (attempt - 1) + jitter)

/-- `max_attempts = max(1, int(opts.retries) + 1)` (line 909), as the iteration
count of `range(1, max_attempts + 1)`. -/
def max_attempts (opts : DownloadOptions) : Nat := (max 1 (opts.retries + 1)).toNat

/-- The retry loop of lines 910-945.  `fuel` counts the remaining iterations of
`range(1, max_attempts + 1)`; the fuel-0 case mirrors the (unreachable) normal
loop fall-through followed by lines 947-948. -/
def attemptLoop (env : RunEnv) (yo : YdlOptsCore) (maxA : Nat) :
    Nat → Nat → LoopState → LoopState × RunExit
  | 0, _, s =>
    (s, match s.lastExc with
        | some msg => RunExit.raised msg
        | none => RunExit.success)
  | fuel + 1, attempt, s =>
    let c1 := cancelAt env.cancelTime s.clock
    let s1 : LoopState := { s with clock := s.clock + 1 }
    if c1 then (s1, RunExit.raised "Cancelled")
    else
      match runExtr env.cancelTime (env.attempts attempt) s1.job s1.clock with
      | (j, c, res) =>
        let s2 : LoopState := { s1 with
          job := j, clock := c, calls := s1.calls + 1,
          trace := s1.trace ++ [⟨false, yo⟩] }
        match res with
        | Except.ok _ => ({ s2 with lastExc := none }, RunExit.success)
        | Except.error msg =>
          let s3 : LoopState := { s2 with lastExc := some msg }
          if is_format_error msg then
            match runExtr env.cancelTime (env.fallback attempt) s3.job s3.clock with
            | (j2, c2, res2) =>
              let s4 : LoopState := { s3 with
                job := j2, clock := c2, fbcalls := s3.fbcalls + 1,
                trace := s3.trace ++ [⟨true, fallbackYdlOpts yo⟩] }
              match res2 with
              | Except.ok _ => ({ s4 with lastExc := none }, RunExit.success)
              | Except.error m2 => (s4, RunExit.raised m2)
          else if is_block_error msg ∧ attempt < maxA then
            let c2 := cancelAt env.cancelTime s3.clock
            let s5 : LoopState := { s3 with clock := s3.clock + 1 }
            if c2 then (s5, RunExit.raised msg)
            else
              attemptLoop env yo maxA fuel (attempt + 1)
                { s5 with delays := s5.delays ++ [backoffDelay attempt (env.jitter attempt)] }
          else (s3, RunExit.raised msg)

/-- Outcome of one `_run_job` execution. -/
structure RunResult where
  job : DownloadJob
  clock : Nat
  calls : Nat
  fbcalls : Nat
  delays : List ℚ
  trace : List InvRecord
deriving Inhabited

/-- The settling code of lines 1029-1059 (each branch reads the cancel event once). -/
def settle_exit (env : RunEnv) (opts : DownloadOptions) (p : LoopState × RunExit) :
    RunResult :=
  let s := p.1
  let c := cancelAt env.cancelTime s.clock
  let j :=
    match p.2 with
    | RunExit.success =>
      if c then { s.job with status := "cancelled" }
      else if s.job.status ≠ "error" ∧ s.job.status ≠ "cancelled" then
        { s.job with status := "done", progress := 100 }
      else s.job
    | RunExit.raised msg =>
      if c then { s.job with status := "cancelled", error := "" }
      else
        { s.job with
          status := "error",
          error :=
            if is_block_error msg then
              if pyStrip opts.cookies_file ≠ "" then
                "YouTube blocked this request (403/429/bot). The provided cookies file (" ++
                  pyStrip opts.cookies_file ++
                  ") might be expired or invalid. Please export a fresh cookies.txt from your browser and try again."
              else
                "YouTube blocked this request (403/429/bot). You must export browser cookies to a cookies.txt file and select it in the Advanced or Settings tab."
            else msg }
  { job := j, clock := s.clock + 1, calls := s.calls, fbcalls := s.fbcalls
    delays := s.delays, trace := s.trace }

/-- `_run_job` (lines 707-1059): prologue, cookie validation (line 802, whose
`ValueError` escapes `_run_job` uncaught — the `Except.error` case), retry loop,
settling. -/
def run_job (env : RunEnv) (job0 : DownloadJob) (clock0 : Nat) :
    Except String RunResult :=
  let job1 : DownloadJob :=
    { job0 with status := "running", progress := 0, error := "", thumbnail := "" }
  if pyStrip job0.options.cookies_file ≠ "" ∧ ¬ env.cookiefile_valid then
    Except.error "Invalid cookies file path. Please select a local cookies.txt file (not a URL)."
  else
    let yo := mainYdlOpts job0.options env.is_image_mode
    let mA := max_attempts job0.options
    Except.ok (settle_exit env job0.options
      (attemptLoop env yo mA mA 1
        { job := job1, clock := clock0, calls := 0, fbcalls := 0
          delays := [], trace := [], lastExc := none }))

/-- Outcome of a worker handling one dequeued job id (lines 693-705).
`loop_notifies` counts the `_notify` calls issued directly by `_worker_loop`
(the cancelled-before-run branch). -/
structure WorkerResult where
  job : DownloadJob
  calls : Nat
  fbcalls : Nat
  ran_job : Bool
  loop_notifies : Nat
  clock : Nat

/-- `_worker_loop` body once a job id has been dequeued and resolved to a job
(lines 697-705): the pre-run cancel check, then `_run_job`. -/
def worker_handle (env : RunEnv) (job : DownloadJob) (clock0 : Nat) :
    Except String WorkerResult :=
  if cancelAt env.cancelTime clock0 then
    Except.ok { job := { job with status := "cancelled" }, calls := 0, fbcalls := 0
                ran_job := false, loop_notifies := 1, clock := clock0 + 1 }
  else
    match run_job env job (clock0 + 1) with
    | Except.error e => Except.error e
    | Except.ok r =>
      Except.ok { job := r.job, calls := r.calls, fbcalls := r.fbcalls
                  ran_job := true, loop_notifies := 0, clock := r.clock }

/-- Manager pool state for `start` / `stop` (lines 630-675).  `workers` is
`len(self._workers)` — `stop()` terminates the threads but the list keeps the
(dead) thread objects. -/
structure ManagerState where
  jobs : List DownloadJob
  workers : Nat
  stop_event : Bool
deriving Repr, DecidableEq

/-- `start` (lines 660-671): early return if `self._workers` is non-empty, else
clear the stop event and spawn
`max(1, int(self._jobs[-1].options.concurrent_downloads) if self._jobs else 1)`
workers. -/
def mgr_start (s : ManagerState) : ManagerState :=
  if s.workers ≠ 0 then s
  else
    let base : Int :=
      match s.jobs.getLast? with
      | some j => j.options.concurrent_downloads
      | none => 1
    { s with stop_event := false, workers := (max 1 base).toNat }

/-- `stop` (lines 673-675): sets the stop event only; `self._workers` is not
cleared. -/
def mgr_stop (s : ManagerState) : ManagerState :=
  { s with stop_event := true }

/-- Reference into the shared-object heap: Python object identity made explicit. -/
abbrev JobRef := Nat

/-- The manager's job collection with Python aliasing explicit: `heap` is the
object store, `jobs_refs` is `self._jobs` (a list of references). -/
structure ManagerHeap where
  heap : List DownloadJob
  jobs_refs : List JobRef
deriving Repr, DecidableEq

/-- `jobs()` (lines 649-651): `list(self._jobs)` — a fresh list holding the same
references. -/
def jobs_snapshot (m : ManagerHeap) : List JobRef := m.jobs_refs

/-- A caller writing the `status` field of a Job record it got from `jobs()`:
the write lands in the shared heap. -/
def caller_set_status (m : ManagerHeap) (r : JobRef) (v : String) : ManagerHeap :=
  match m.heap.get? r with
  | some j => { m with heap := m.heap.set r { j with status := v } }
  | none => m

/-- What the Manager observes for the record behind reference `r`. -/
def mgr_job_status (m : ManagerHeap) (r : JobRef) : Option String :=
  (m.heap.get? r).map (fun j => j.status)

/-- `_notify` (lines 1171-1175): the observer callback's outcome is swallowed;
the first component is the surrounding state, the second the exception (if any)
that propagates to the caller. -/
def notify_model {σ : Type} (on_status : DownloadJob → Except String Unit)
    (st : σ) (job : DownloadJob) : σ × Option String :=
  match on_status job with
  | Except.ok _ => (st, none)
  | Except.error _ => (st, none)

/-- `_log` (lines 1177-1181), same shape as `_notify`. -/
def log_model {σ : Type} (on_log : String → Except String Unit)
    (st : σ) (msg : String) : σ × Option String :=
  match on_log msg with
  | Except.ok _ => (st, none)
  | Except.error _ => (st, none)

/-- Cumulative effect of a hook list on the job when no hook observes the
cancel event. -/
def hookFold (j : DownloadJob) (hooks : List HookData) : DownloadJob :=
  hooks.foldl hook_update j

/-- The progress formula as the spec states it (section 4.4):
`clamp(0, 100, ((completed_items) + (current_item_fraction)) / total_items * 100)`
with `completed_items = max(0, playlist_index - 1)` and
`current_item_fraction = percent/100`.  Stated from the spec wording, to be
compared against `hook_update`. -/
def spec_playlist_progress (playlist_index : Int) (pct : ℚ) (total_items : Int) : ℚ :=
  clamp01_100 ((((max 0 (playlist_index - 1) : Int) : ℚ) + pct / 100) / (total_items : ℚ) * 100)

/-- The backoff formula as claim C7 words it: `min(60, 2^(k-1))` plus the
jitter (cap applied before adding jitter).  Stated from the claim wording, to
be compared against `backoffDelay`. -/
def claimed_backoff (attempt : Nat) (jitter : ℚ) : ℚ :=
  pyMin 60 ((2 : ℚ) ^ (attempt - 1)) + jitter

/-- Baseline options used by the concrete witnesses. -/
def optsW : DownloadOptions :=
  { quality := "best", fps := 0, container := "mp4", audio_only := false,
    cookies_file := "", concurrent_downloads := 4, retries := 3 }

/-- A freshly added job over `optsW`. -/
def jobW : DownloadJob := { job_id := 1, url := "https://x/1", options := optsW }

/-- Environment template: no cancellation, benign collaborator, fixed jitter. -/
def envW : RunEnv :=
  { cancelTime := none,
    attempts := fun _ => { hooks := [], result := Except.ok () },
    fallback := fun _ => { hooks := [], result := Except.ok () },
    jitter := fun _ => 1/2, is_image_mode := false, cookiefile_valid := true }

/-- C1 fixture: `retries = 2`, every invocation raises an HTTP 403 message. -/
def jobC1 : DownloadJob := { jobW with options := { optsW with retries := 2 } }

/-- C1 fixture environment. -/
def envC1 : RunEnv :=
  { envW with
    attempts := fun _ => { hooks := [], result := Except.error "HTTP Error 403: Forbidden" } }

/-- C2/C3 fixture: the cancel event is set from the very start; the collaborator
would succeed if invoked. -/
def envC2 : RunEnv := { envW with cancelTime := some 0 }

/-- The run result of the C2 fixture. -/
def resC2 : RunResult := (run_job envC2 jobW 0).toOption.get!

/-- C4 fixture: the collaborator reports a finished download (progress 100) and
then raises a terminal (non-block, non-format) message, e.g. a postprocessing
failure. -/
def envC4 : RunEnv :=
  { envW with
    attempts := fun _ =>
      { hooks := [{ status := "finished", pct := 0, pi := 0, pc := 0,
                    speed := "", eta := "", filename := none }],
        result := Except.error "ffmpeg exited with code 1" } }

/-- The run result of the C4 fixture. -/
def resC4 : RunResult := (run_job envC4 jobW 0).toOption.get!

/-- C5 fixture: playlist item 2 of 4 at 50%. -/
def hookC5 : HookData :=
  { status := "downloading", pct := 50, pi := 2, pc := 4,
    speed := "1.00MiB/s", eta := "00:10", filename := some "f.mp4" }

/-- The job produced by the C5 fixture hook. -/
def jobC5out : DownloadJob := (progress_hook false jobW hookC5).toOption.get!

/-- C6 fixture: the first invocation fails with a format-unavailable message,
the relaxed fallback invocation succeeds. -/
def envC6 : RunEnv :=
  { envW with
    attempts := fun _ =>
      { hooks := [], result := Except.error "Requested format is not available" } }

/-- C7 fixture: `retries = 7` so that attempt 7 sleeps, all failures transient. -/
def jobC7 : DownloadJob := { jobW with options := { optsW with retries := 7 } }

/-- C7 fixture environment: HTTP 429 failures, jitter 1/2 on every draw. -/
def envC7 : RunEnv :=
  { envW with
    attempts := fun _ =>
      { hooks := [], result := Except.error "HTTP Error 429: Too Many Requests" } }

/-- The run result of the C7 fixture. -/
def resC7 : RunResult := (run_job envC7 jobC7 0).toOption.get!

/-- C8 fixture: one job configured with `concurrent_downloads = 2`, pool not yet
started. -/
def s0C8 : ManagerState :=
  { jobs := [{ jobW with options := { optsW with concurrent_downloads := 2 } }],
    workers := 0, stop_event := false }

/-- C9 fixture: manager owning one queued job record at heap slot 0. -/
def m0C9 : ManagerHeap := { heap := [jobW], jobs_refs := [0] }

/-- A fully successful run over the benign environment (used by the C4
amended-direction witness). -/
def resDone : RunResult := (run_job envW jobW 0).toOption.get!

end Snakee

namespace Snakee

theorem cancelAt_none (c : Nat) : cancelAt none c = false := rfl

theorem cancelAt_some (t c : Nat) : cancelAt (some t) c = decide (t ≤ c) := rfl

theorem hook_update_error (j : DownloadJob) (d : HookData) :
    (hook_update j d).error = j.error := by
  unfold hook_update
  split
  · rfl
  · split
    · rfl
    · rfl

theorem hook_update_status (j : DownloadJob) (d : HookData) :
    (hook_update j d).status = j.status := by
  unfold hook_update
  split
  · rfl
  · split
    · rfl
    · rfl

theorem hookFold_error (hooks : List HookData) :
    ∀ j : DownloadJob, (hookFold j hooks).error = j.error := by
  induction hooks with
  | nil => intro j; rfl
  | cons d rest ih =>
    intro j
    have : hookFold j (d :: rest) = hookFold (hook_update j d) rest := rfl
    rw [this, ih, hook_update_error]

theorem hookFold_status (hooks : List HookData) :
    ∀ j : DownloadJob, (hookFold j hooks).status = j.status := by
  induction hooks with
  | nil => intro j; rfl
  | cons d rest ih =>
    intro j
    have : hookFold j (d :: rest) = hookFold (hook_update j d) rest := rfl
    rw [this, ih, hook_update_status]

theorem runHooks_error (ct : Option Nat) (hooks : List HookData) :
    ∀ (j : DownloadJob) (c : Nat), ((runHooks ct hooks j c).1).error = j.error := by
  induction hooks with
  | nil => intro j c; rfl
  | cons d rest ih =>
    intro j c
    simp only [runHooks, progress_hook]
    by_cases hc : cancelAt ct c = true
    · simp [hc]
    · simp only [hc]
      simp only [Bool.false_eq_true, if_false, ite_false]
      rw [ih, hook_update_error]

theorem runExtr_error (ct : Option Nat) (spec : ExtrSpec) (j : DownloadJob) (c : Nat) :
    ((runExtr ct spec j c).1).error = j.error := by
  unfold runExtr
  rcases h : runHooks ct spec.hooks j c with ⟨j2, c2, o⟩
  have h2 := runHooks_error ct spec.hooks j c
  rw [h] at h2
  cases o <;> simpa using h2

theorem runHooks_none (hooks : List HookData) :
    ∀ (j : DownloadJob) (c : Nat),
      runHooks none hooks j c = (hookFold j hooks, c + hooks.length, none) := by
  induction hooks with
  | nil => intro j c; simp [runHooks, hookFold]
  | cons d rest ih =>
    intro j c
    simp only [runHooks, cancelAt_none, progress_hook, Bool.false_eq_true, if_false,
      ite_false]
    rw [ih]
    have hf : hookFold j (d :: rest) = hookFold (hook_update j d) rest := rfl
    rw [hf]
    simp only [List.length_cons, Prod.mk.injEq, true_and, and_true]
    omega

theorem runExtr_none (spec : ExtrSpec) (j : DownloadJob) (c : Nat) :
    runExtr none spec j c = (hookFold j spec.hooks, c + spec.hooks.length, spec.result) := by
  unfold runExtr
  rw [runHooks_none]

theorem max_attempts_pos (opts : DownloadOptions) : 1 ≤ max_attempts opts := by
  unfold max_attempts
  have h : (1 : Int) ≤ max 1 (opts.retries + 1) := le_max_left _ _
  omega

theorem attemptLoop_error (env : RunEnv) (yo : YdlOptsCore) (maxA : Nat) :
    ∀ (fuel attempt : Nat) (s : LoopState),
      ((attemptLoop env yo maxA fuel attempt s).1).job.error = s.job.error := by
  intro fuel
  induction fuel with
  | zero => intro a s; rfl
  | succ fuel ih =>
    intro a s
    simp only [attemptLoop]
    cases hc : cancelAt env.cancelTime s.clock with
    | true => simp
    | false =>
      simp only [Bool.false_eq_true, if_false, ite_false]
      rcases hre : runExtr env.cancelTime (env.attempts a) s.job (s.clock + 1) with ⟨j, c, res⟩
      have hj : j.error = s.job.error := by
        have h2 := runExtr_error env.cancelTime (env.attempts a) s.job (s.clock + 1)
        rw [hre] at h2
        exact h2
      dsimp only
      cases res with
      | ok u => exact hj
      | error msg =>
        dsimp only
        by_cases hf : is_format_error msg = true
        · rw [if_pos hf]
          rcases hre2 : runExtr env.cancelTime (env.fallback a) j c with ⟨j2, c2, res2⟩
          have hj2 : j2.error = j.error := by
            have h3 := runExtr_error env.cancelTime (env.fallback a) j c
            rw [hre2] at h3
            exact h3
          dsimp only
          cases res2 with
          | ok u2 => exact hj2.trans hj
          | error m2 => exact hj2.trans hj
        · rw [if_neg hf]
          by_cases hb : is_block_error msg = true ∧ a < maxA
          · rw [if_pos hb]
            cases hc2 : cancelAt env.cancelTime c with
            | true => exact hj
            | false =>
              simp only [Bool.false_eq_true, if_false, ite_false]
              rw [ih]
              exact hj
          · rw [if_neg hb]
            exact hj

theorem attemptLoop_all_block (env : RunEnv) (yo : YdlOptsCore) (maxA : Nat) (m : Nat → String)
    (hc : env.cancelTime = none)
    (hfail : ∀ k, (env.attempts k).result = Except.error (m k))
    (hblock : ∀ k, is_block_error (m k) = true)
    (hnofmt : ∀ k, is_format_error (m k) = false) :
    ∀ (fuel attempt : Nat) (s : LoopState), attempt + fuel = maxA + 1 → 1 ≤ fuel →
      ∃ s2, attemptLoop env yo maxA fuel attempt s = (s2, RunExit.raised (m maxA)) ∧
        s2.calls = s.calls + fuel ∧ s2.fbcalls = s.fbcalls ∧
        s2.job.error = s.job.error ∧ s2.job.status = s.job.status := by
  intro fuel
  induction fuel with
  | zero => intro a s h0 h1; exact absurd h1 (by omega)
  | succ fuel ih =>
    intro a s hsum _
    simp only [attemptLoop, hc, cancelAt_none, Bool.false_eq_true, if_false, ite_false]
    rw [runExtr_none, hfail a]
    dsimp only
    have hnf : ¬ (is_format_error (m a) = true) := by simp [hnofmt a]
    rw [if_neg hnf]
    by_cases hlt : a < maxA
    · rw [if_pos ⟨hblock a, hlt⟩]
      have step : ∀ (S : LoopState), S.calls = s.calls + 1 → S.fbcalls = s.fbcalls →
          S.job.error = s.job.error → S.job.status = s.job.status →
          ∃ s2, attemptLoop env yo maxA fuel (a + 1) S = (s2, RunExit.raised (m maxA)) ∧
            s2.calls = s.calls + (fuel + 1) ∧ s2.fbcalls = s.fbcalls ∧
            s2.job.error = s.job.error ∧ s2.job.status = s.job.status := by
        intro S h1 h2 h3 h4
        obtain ⟨s2, hL, hc2, hf2, he2, hs2⟩ := ih (a + 1) S (by omega) (by omega)
        refine ⟨s2, hL, by omega, ?_, ?_, ?_⟩
        · rw [hf2, h2]
        · rw [he2, h3]
        · rw [hs2, h4]
      apply step
      · rfl
      · rfl
      · exact hookFold_error _ _
      · exact hookFold_status _ _
    · have hnb : ¬ (is_block_error (m a) = true ∧ a < maxA) := fun h => hlt h.2
      rw [if_neg hnb]
      have ha : a = maxA := by omega
      subst ha
      refine ⟨_, rfl, ?_, rfl, ?_, ?_⟩
      · have : fuel = 0 := by omega
        subst this
        rfl
      · exact hookFold_error _ _
      · exact hookFold_status _ _

/-- C1: for a job with `retries = r ≥ 0` whose every collaborator invocation
raises a transient-block-classified (non-format) message, and which is never
cancelled, `_run_job` invokes the collaborator exactly `r + 1` times
(`max_attempts = max(1, retries + 1)`), with no fallback invocation, and
settles the job with `status == "error"`. -/
theorem retry_budget (env : RunEnv) (job : DownloadJob) (clock0 : Nat) (r : Int)
    (m : Nat → String)
    (hr : 0 ≤ r) (hret : job.options.retries = r)
    (hvalid : env.cookiefile_valid = true)
    (hcancel : env.cancelTime = none)
    (hfail : ∀ k, (env.attempts k).result = Except.error (m k))
    (hblock : ∀ k, is_block_error (m k) = true)
    (hnofmt : ∀ k, is_format_error (m k) = false) :
    ∃ res, run_job env job clock0 = Except.ok res ∧
      max_attempts job.options = (r + 1).toNat ∧
      res.calls = (r + 1).toNat ∧ res.fbcalls = 0 ∧
      res.job.status = "error" := by
  have hmA : max_attempts job.options = (r + 1).toNat := by
    unfold max_attempts
    rw [hret, max_eq_right (by omega : (1 : Int) ≤ r + 1)]
  obtain ⟨s2, hloop, hcalls, hfb, herr, hstat⟩ :=
    attemptLoop_all_block env (mainYdlOpts job.options env.is_image_mode)
      (max_attempts job.options) m hcancel hfail hblock hnofmt
      (max_attempts job.options) 1
      { job := { job with status := "running", progress := 0, error := "", thumbnail := "" },
        clock := clock0, calls := 0, fbcalls := 0, delays := [], trace := [], lastExc := none }
      (by omega)
      (max_attempts_pos job.options)
  refine ⟨settle_exit env job.options
      (s2, RunExit.raised (m (max_attempts job.options))), ?_, hmA, ?_, ?_, ?_⟩
  · unfold run_job
    rw [if_neg (by simp [hvalid])]
    dsimp only
    rw [hloop]
  · have hcs : (settle_exit env job.options
        (s2, RunExit.raised (m (max_attempts job.options)))).calls = s2.calls := rfl
    rw [hcs, hcalls, hmA]
    exact Nat.zero_add _
  · exact hfb
  · unfold settle_exit
    dsimp only
    rw [hcancel, cancelAt_none]
    simp

/-- Witness for C1: `retries = 2`, every invocation raising
`HTTP Error 403: Forbidden`; three invocations, no fallback, final status
`error`. -/
theorem retry_budget_witness :
    ∃ res, run_job envC1 jobC1 0 = Except.ok res ∧
      max_attempts jobC1.options = ((2 : Int) + 1).toNat ∧
      res.calls = ((2 : Int) + 1).toNat ∧ res.fbcalls = 0 ∧
      res.job.status = "error" :=
  retry_budget envC1 jobC1 0 2 (fun _ => "HTTP Error 403: Forbidden")
    (by decide) rfl rfl rfl (fun _ => rfl)
    (fun _ => (by decide : is_block_error "HTTP Error 403: Forbidden" = true))
    (fun _ => (by decide : is_format_error "HTTP Error 403: Forbidden" = false))

/-- C2: whenever the cancel signal is set by the time of any checkpoint read
during per-job execution (all checkpoint reads happen at clock instants
strictly below `res.clock`), the job settles with `status == "cancelled"` and
`error == ""`, never `done` or `error`, regardless of collaborator success or
failure message. -/
theorem cancel_priority (env : RunEnv) (job : DownloadJob) (clock0 t : Nat)
    (res : RunResult)
    (hrun : run_job env job clock0 = Except.ok res)
    (hct : env.cancelTime = some t)
    (hseen : t < res.clock) :
    res.job.status = "cancelled" ∧ res.job.error = "" := by
  unfold run_job at hrun
  by_cases hcook : pyStrip job.options.cookies_file ≠ "" ∧ ¬ env.cookiefile_valid
  · rw [if_pos hcook] at hrun
    cases hrun
  · rw [if_neg hcook] at hrun
    dsimp only at hrun
    injection hrun with hres
    rcases hp : attemptLoop env (mainYdlOpts job.options env.is_image_mode)
        (max_attempts job.options) (max_attempts job.options) 1
        { job := { job with status := "running", progress := 0, error := "", thumbnail := "" },
          clock := clock0, calls := 0, fbcalls := 0, delays := [], trace := [], lastExc := none }
      with ⟨s, ex⟩
    rw [hp] at hres
    subst hres
    have herr : s.job.error = "" := by
      have h2 := attemptLoop_error env (mainYdlOpts job.options env.is_image_mode)
        (max_attempts job.options) (max_attempts job.options) 1
        { job := { job with status := "running", progress := 0, error := "", thumbnail := "" },
          clock := clock0, calls := 0, fbcalls := 0, delays := [], trace := [], lastExc := none }
      rw [hp] at h2
      exact h2
    have hle : t ≤ s.clock := by
      have h3 : (settle_exit env job.options (s, ex)).clock = s.clock + 1 := rfl
      omega
    have hcc : cancelAt env.cancelTime s.clock = true := by
      rw [hct, cancelAt_some]
      exact decide_eq_true hle
    cases ex with
    | success =>
      unfold settle_exit
      dsimp only
      rw [hcc, if_pos rfl]
      exact ⟨rfl, herr⟩
    | raised msg =>
      unfold settle_exit
      dsimp only
      rw [hcc, if_pos rfl]
      exact ⟨rfl, rfl⟩

/-- Witness for C2: cancel signal set from the start while the collaborator
would succeed; the job still settles `cancelled` with empty error. -/
theorem cancel_priority_witness :
    run_job envC2 jobW 0 = Except.ok resC2 ∧
    resC2.job.status = "cancelled" ∧ resC2.job.error = "" :=
  ⟨rfl, cancel_priority envC2 jobW 0 0 resC2 rfl rfl (by decide)⟩

/-- C3: if the cancel signal is set before a worker picks the job up, the
worker marks it `cancelled` and notifies once, and `_run_job` (hence the
extraction collaborator) is never entered: zero collaborator invocations. -/
theorem cancel_before_dequeue (env : RunEnv) (job : DownloadJob) (clock0 t : Nat)
    (hct : env.cancelTime = some t) (hle : t ≤ clock0) :
    worker_handle env job clock0 =
      Except.ok { job := { job with status := "cancelled" }, calls := 0, fbcalls := 0
                  ran_job := false, loop_notifies := 1, clock := clock0 + 1 } := by
  unfold worker_handle
  rw [hct, cancelAt_some, if_pos (decide_eq_true hle)]

/-- Witness for C3 at a concrete job whose cancel event is set from the start. -/
theorem cancel_before_dequeue_witness :
    worker_handle envC2 jobW 0 =
      Except.ok { job := { jobW with status := "cancelled" }, calls := 0, fbcalls := 0
                  ran_job := false, loop_notifies := 1, clock := 1 } :=
  cancel_before_dequeue envC2 jobW 0 0 rfl (by decide)

theorem pyMin_eq (a b : ℚ) : pyMin a b = min a b := (min_def a b).symm

theorem pyMax_eq (a b : ℚ) : pyMax a b = max a b := (max_def a b).symm

/-- Counterexample to C4 as stated: a run whose collaborator reports a finished
download (progress set to 100) and then raises a terminal postprocessing error
settles with `status == "error"` while `progress == 100.0` — so
`progress == 100.0` does not imply `status == done`. -/
theorem progress_iff_done_counterexample :
    run_job envC4 jobW 0 = Except.ok resC4 ∧
    resC4.job.status = "error" ∧ resC4.job.progress = 100 ∧
    resC4.job.status ≠ "done" :=
  ⟨rfl, by decide, by decide, by decide⟩

/-- C4 (amended): upon settling, `status == done` implies `progress == 100.0`;
the converse direction of the claim fails (see the counterexample). -/
theorem done_implies_progress_100 (env : RunEnv) (job : DownloadJob) (clock0 : Nat)
    (res : RunResult)
    (hrun : run_job env job clock0 = Except.ok res)
    (hdone : res.job.status = "done") :
    res.job.progress = 100 := by
  unfold run_job at hrun
  by_cases hcook : pyStrip job.options.cookies_file ≠ "" ∧ ¬ env.cookiefile_valid
  · rw [if_pos hcook] at hrun
    cases hrun
  · rw [if_neg hcook] at hrun
    dsimp only at hrun
    injection hrun with hres
    rcases hp : attemptLoop env (mainYdlOpts job.options env.is_image_mode)
        (max_attempts job.options) (max_attempts job.options) 1
        { job := { job with status := "running", progress := 0, error := "", thumbnail := "" },
          clock := clock0, calls := 0, fbcalls := 0, delays := [], trace := [], lastExc := none }
      with ⟨s, ex⟩
    rw [hp] at hres
    subst hres
    cases ex with
    | success =>
      unfold settle_exit at hdone ⊢
      dsimp only at hdone ⊢
      cases hcc : cancelAt env.cancelTime s.clock with
      | true =>
        rw [hcc, if_pos rfl] at hdone
        exact absurd hdone ((by decide : ¬ ("cancelled" = "done")))
      | false =>
        rw [hcc, if_neg (by decide : ¬ (false = true))] at hdone
        rw [if_neg (by decide : ¬ (false = true))]
        by_cases hst : s.job.status ≠ "error" ∧ s.job.status ≠ "cancelled"
        · rw [if_pos hst]
        · rw [if_neg hst] at hdone
          rcases not_and_or.mp hst with h | h
          · rw [not_ne_iff] at h
            rw [hdone] at h
            exact absurd h (by decide)
          · rw [not_ne_iff] at h
            rw [hdone] at h
            exact absurd h (by decide)
    | raised msg =>
      unfold settle_exit at hdone
      dsimp only at hdone
      cases hcc : cancelAt env.cancelTime s.clock with
      | true =>
        rw [hcc, if_pos rfl] at hdone
        exact absurd hdone ((by decide : ¬ ("cancelled" = "done")))
      | false =>
        rw [hcc, if_neg (by decide : ¬ (false = true))] at hdone
        exact absurd hdone ((by decide : ¬ ("error" = "done")))

/-- Witness for the amended C4: a successful benign run settles `done` with
`progress == 100`. -/
theorem done_implies_progress_100_witness :
    run_job envW jobW 0 = Except.ok resDone ∧ resDone.job.status = "done" ∧
    resDone.job.progress = 100 :=
  ⟨rfl, by decide, done_implies_progress_100 envW jobW 0 resDone rfl (by decide)⟩

/-- C5: for a `downloading` progress callback, the progress written by
`_progress_hook` equals the spec aggregation formula
`clamp(0,100, ((max(0,pi-1)) + pct/100)/pc*100)` when playlist context is
present (`pi > 0` and `pc > 0`), and the clamped single-item percentage
otherwise. -/
theorem progress_aggregation (job : DownloadJob) (d : HookData) (j : DownloadJob)
    (hst : d.status = "downloading")
    (hok : progress_hook false job d = Except.ok j) :
    (0 < d.pc → 0 < d.pi → j.progress = spec_playlist_progress d.pi d.pct d.pc) ∧
    (¬ (0 < d.pc ∧ 0 < d.pi) → j.progress = clamp01_100 d.pct) := by
  have hj : j = hook_update job d := by
    have h0 : progress_hook false job d = Except.ok (hook_update job d) := rfl
    rw [h0] at hok
    injection hok with h
    exact h.symm
  subst hj
  unfold hook_update
  rw [if_pos hst]
  constructor
  · intro h1 h2
    dsimp only
    rw [if_pos ⟨h1, h2⟩]
    unfold spec_playlist_progress
    have hmax : ((max 0 (d.pi - 1) : Int) : ℚ) = (d.pi : ℚ) - 1 := by
      rw [max_eq_right (by omega : (0 : Int) ≤ d.pi - 1)]
      push_cast
      ring
    rw [hmax]
  · intro hn
    dsimp only
    rw [if_neg hn]

/-- Witness for C5: playlist item 2 of 4 at 50 percent yields progress 37.5. -/
theorem progress_aggregation_witness :
    jobC5out.progress = spec_playlist_progress 2 50 4 ∧
    spec_playlist_progress 2 50 4 = 75 / 2 :=
  ⟨(progress_aggregation jobW hookC5 jobC5out rfl rfl).1 (by decide) (by decide),
   by norm_num [spec_playlist_progress, clamp01_100, pyMin, pyMax]⟩

/-- C6: when the first extraction attempt fails with a format-unavailable
message and the immediate fallback invocation (with `format` and
`merge_output_format` removed) succeeds, and the job is not cancelled, the job
settles `done` with progress 100 after exactly one budget attempt and exactly
one fallback invocation, no backoff sleeps, with the fallback receiving the
option set stripped of both format constraints. -/
theorem format_fallback (env : RunEnv) (job : DownloadJob) (clock0 : Nat) (msg : String)
    (hvalid : env.cookiefile_valid = true)
    (hcancel : env.cancelTime = none)
    (hfail : (env.attempts 1).result = Except.error msg)
    (hfmt : is_format_error msg = true)
    (hfb : (env.fallback 1).result = Except.ok ()) :
    ∃ res, run_job env job clock0 = Except.ok res ∧
      res.job.status = "done" ∧ res.job.progress = 100 ∧
      res.calls = 1 ∧ res.fbcalls = 1 ∧ res.delays = [] ∧
      res.trace = [⟨false, mainYdlOpts job.options env.is_image_mode⟩,
                   ⟨true, fallbackYdlOpts (mainYdlOpts job.options env.is_image_mode)⟩] ∧
      (fallbackYdlOpts (mainYdlOpts job.options env.is_image_mode)).format = none ∧
      (fallbackYdlOpts (mainYdlOpts job.options env.is_image_mode)).merge_output_format = none := by
  obtain ⟨k, hk⟩ : ∃ k, max_attempts job.options = k + 1 :=
    ⟨max_attempts job.options - 1, by have := max_attempts_pos job.options; omega⟩
  unfold run_job
  rw [if_neg (by simp [hvalid])]
  dsimp only
  rw [hk]
  simp only [attemptLoop, hcancel, cancelAt_none, Bool.false_eq_true, if_false, ite_false]
  rw [runExtr_none, hfail]
  dsimp only
  rw [if_pos hfmt]
  rw [runExtr_none, hfb]
  dsimp only
  refine ⟨_, rfl, ?_, ?_, rfl, rfl, rfl, rfl, rfl, rfl⟩
  · unfold settle_exit
    dsimp only
    rw [hcancel, cancelAt_none]
    simp only [Bool.false_eq_true, if_false, ite_false]
    rw [hookFold_status, hookFold_status]
    rw [if_pos ⟨(by decide : ("running" : String) ≠ "error"),
                (by decide : ("running" : String) ≠ "cancelled")⟩]
  · unfold settle_exit
    dsimp only
    rw [hcancel, cancelAt_none]
    simp only [Bool.false_eq_true, if_false, ite_false]
    rw [hookFold_status, hookFold_status]
    rw [if_pos ⟨(by decide : ("running" : String) ≠ "error"),
                (by decide : ("running" : String) ≠ "cancelled")⟩]

end Snakee

namespace Snakee

/-- Witness for C6: the first attempt fails with `Requested format is not
available`, the fallback succeeds, and the job settles `done` with exactly one
budget attempt and one fallback invocation. -/
theorem format_fallback_witness :
    ∃ res, run_job envC6 jobW 0 = Except.ok res ∧
      res.job.status = "done" ∧ res.job.progress = 100 ∧
      res.calls = 1 ∧ res.fbcalls = 1 ∧ res.delays = [] ∧
      res.trace = [⟨false, mainYdlOpts jobW.options envC6.is_image_mode⟩,
                   ⟨true, fallbackYdlOpts (mainYdlOpts jobW.options envC6.is_image_mode)⟩] ∧
      (fallbackYdlOpts (mainYdlOpts jobW.options envC6.is_image_mode)).format = none ∧
      (fallbackYdlOpts (mainYdlOpts jobW.options envC6.is_image_mode)).merge_output_format = none :=
  format_fallback envC6 jobW 0 "Requested format is not available" rfl rfl rfl
    (by decide) rfl

/-- Counterexample to C7 as stated: at attempt 7 with jitter 1/2 the delay the
program computes (line 940) is `min(60, 2^6 + 1/2) = 60`, whereas the claim's
formula `min(60, 2^6) + 1/2` gives 60.5; the two differ on the recorded delay
of a concrete run with `retries = 7`. -/
theorem backoff_cap_counterexample :
    run_job envC7 jobC7 0 = Except.ok resC7 ∧
    resC7.delays.getD 6 0 = backoffDelay 7 (1 / 2) ∧
    backoffDelay 7 (1 / 2) = 60 ∧
    claimed_backoff 7 (1 / 2) = 121 / 2 ∧
    resC7.delays.getD 6 0 ≠ claimed_backoff 7 (1 / 2) := by
  have h2 : resC7.delays.getD 6 0 = backoffDelay 7 (1 / 2) := rfl
  have h3 : backoffDelay 7 (1 / 2) = 60 := by
    unfold backoffDelay pyMin
    rw [if_pos (by norm_num)]
  have h4 : claimed_backoff 7 (1 / 2) = 121 / 2 := by
    unfold claimed_backoff pyMin
    rw [if_pos (by norm_num)]
    norm_num
  refine ⟨rfl, h2, h3, h4, ?_⟩
  rw [h2, h3, h4]
  norm_num

/-- C7 (amended): the delay computed before the next transient-block retry is
`min(60, 2^(k-1) + jitter)` — the 60-second cap applies after the jitter is
added; the jitter-free base `min(60, 2^(k-1))` is non-decreasing in the attempt
number and never exceeds 60 seconds. -/
theorem backoff_amended (k : Nat) (q : ℚ) (hk : 1 ≤ k) :
    backoffDelay k q = min 60 ((2 : ℚ) ^ (k - 1) + q) ∧
    backoffDelay k 0 ≤ backoffDelay (k + 1) 0 ∧
    backoffDelay k 0 ≤ 60 := by
  refine ⟨?_, ?_, ?_⟩
  · unfold backoffDelay
    rw [pyMin_eq]
  · unfold backoffDelay
    rw [pyMin_eq, pyMin_eq]
    simp only [add_zero]
    exact min_le_min (le_refl 60) (pow_le_pow_right₀ (by norm_num) (by omega))
  · unfold backoffDelay
    rw [pyMin_eq]
    exact min_le_left _ _

/-- Witness for the amended C7 at attempt 7, jitter 1/2. -/
theorem backoff_amended_witness :
    backoffDelay 7 (1 / 2) = min 60 ((2 : ℚ) ^ (7 - 1) + 1 / 2) ∧
    backoffDelay 7 0 ≤ backoffDelay (7 + 1) 0 ∧
    backoffDelay 7 0 ≤ 60 :=
  backoff_amended 7 (1 / 2) (by decide)

/-- C8 (evaluated at the failing call sequence): the first `start()` spawns
`max(1, 2) = 2` workers; `stop()` only sets the stop event, leaving the worker
list non-empty; the second `start()` is then a no-op — no fresh pool is
spawned and the stop event stays set, contradicting the restart the claim (and
spec section 4.1) requires. -/
theorem start_after_stop_noop :
    mgr_start s0C8 = { s0C8 with workers := 2, stop_event := false } ∧
    mgr_stop (mgr_start s0C8) = { s0C8 with workers := 2, stop_event := true } ∧
    mgr_start (mgr_stop (mgr_start s0C8)) = mgr_stop (mgr_start s0C8) ∧
    (mgr_start (mgr_stop (mgr_start s0C8))).stop_event = true ∧
    (mgr_start (mgr_stop (mgr_start s0C8))).workers = 2 := by
  refine ⟨?_, ?_, ?_, ?_, ?_⟩ <;> rfl

/-- Counterexample to C9 as stated: the snapshot returned by `jobs()` holds
references to the live Job records; writing the `status` field through the
reference taken from the snapshot changes the Manager's internal state. -/
theorem jobs_snapshot_counterexample :
    jobs_snapshot m0C9 = [0] ∧
    mgr_job_status m0C9 0 = some "queued" ∧
    caller_set_status m0C9 0 "done" ≠ m0C9 ∧
    mgr_job_status (caller_set_status m0C9 0 "done") 0 = some "done" := by
  refine ⟨rfl, rfl, ?_, rfl⟩
  decide

/-- C9 (amended): `jobs()` returns a fresh list (list-level mutations by the
caller cannot reach the Manager's collection) whose elements are the Manager's
own Job references, so a field write performed through a snapshot reference is
observed by the Manager. -/
theorem jobs_snapshot_amended (m : ManagerHeap) (r : JobRef) (v : String)
    (j : DownloadJob) (hr : r ∈ jobs_snapshot m) (hj : m.heap.get? r = some j) :
    jobs_snapshot m = m.jobs_refs ∧
    mgr_job_status (caller_set_status m r v) r = some v := by
  refine ⟨rfl, ?_⟩
  unfold caller_set_status
  rw [hj]
  unfold mgr_job_status
  dsimp only
  have hlt : r < m.heap.length := (List.get?_eq_some.mp hj).1
  rw [List.get?_set_eq]
  simp [hlt]

/-- Witness for the amended C9 at the concrete one-job manager. -/
theorem jobs_snapshot_amended_witness :
    jobs_snapshot m0C9 = m0C9.jobs_refs ∧
    mgr_job_status (caller_set_status m0C9 0 "done") 0 = some "done" :=
  jobs_snapshot_amended m0C9 0 "done" jobW (by decide) rfl

/-- C10: `_notify` and `_log` swallow every exception the observer callbacks
raise: nothing propagates to the caller, and the surrounding state is exactly
what it would be had the callback returned normally. -/
theorem observer_exceptions_swallowed {σ : Type}
    (on_status : DownloadJob → Except String Unit)
    (on_log : String → Except String Unit) (st : σ) (job : DownloadJob)
    (msg : String) :
    notify_model on_status st job = (st, none) ∧
    notify_model on_status st job = notify_model (fun _ => Except.ok ()) st job ∧
    log_model on_log st msg = (st, none) ∧
    log_model on_log st msg = log_model (fun _ => Except.ok ()) st msg := by
  unfold notify_model log_model
  refine ⟨?_, ?_, ?_, ?_⟩ <;>
    first
      | (cases on_status job <;> rfl)
      | (cases on_log msg <;> rfl)

end Snakee
